import Mathlib

/-!
Shallow embedding of the `/api/generate` request pipeline of `src/server.js`
(SaaXPloitz/web): configuration, cache-key derivation (model/language plus a
base64 rendering of the UTF-8 prompt bytes), response normalization, the Redis
cache with per-entry expiry, and the Express handler with its single
try/catch error path.  Machine behaviour (JS template strings, `Buffer.from`,
`String.prototype.replace` with a global two-character pattern, `trim`,
truthiness tests, axios error objects) is translated into pure Lean functions.
-/

namespace CodeGenProxy

/-- `CONFIG.models` entry: `{ maxTokens, cost }`. -/
structure ModelInfo where
  maxTokens : Nat
  cost : Nat
deriving DecidableEq

/-- `CONFIG.languages` from `server.js`. -/
def CONFIG_languages : List String :=
  ["JavaScript", "C#", "C++", "Java", "Ruby", "Go", "Python", "Custom"]

/-- `CONFIG.models` from `server.js`, as an association list (object own-keys). -/
def CONFIG_models : List (String × ModelInfo) :=
  [("gpt-4o-mini", ⟨128000, 1⟩),
   ("gpt-4o", ⟨128000, 2⟩),
   ("gpt-4-turbo", ⟨128000, 3⟩),
   ("claude-3-opus", ⟨200000, 5⟩),
   ("claude-3-5-sonnet", ⟨200000, 4⟩)]

/-- `CONFIG.cacheTTL` (seconds). -/
def CONFIG_cacheTTL : Nat := 3600

/-- UTF-8 encoding of a single character, as `Buffer.from` performs on each
code point of the prompt string. -/
def charUtf8 (c : Char) : List Nat :=
  let n := c.toNat
  if n < 128 then [n]
  else if n < 2048 then [192 + n / 64, 128 + n % 64]
  else if n < 65536 then [224 + n / 4096, 128 + n / 64 % 64, 128 + n % 64]
  else [240 + n / 262144, 128 + n / 4096 % 64, 128 + n / 64 % 64, 128 + n % 64]

/-- UTF-8 bytes of a string (`Buffer.from(prompt)`). -/
def strBytes : List Char → List Nat
  | [] => []
  | c :: cs => charUtf8 c ++ strBytes cs

/-- The base64 alphabet used by `Buffer.prototype.toString('base64')`. -/
def b64Alphabet : List Char :=
  ['A','B','C','D','E','F','G','H','I','J','K','L','M',
   'N','O','P','Q','R','S','T','U','V','W','X','Y','Z',
   'a','b','c','d','e','f','g','h','i','j','k','l','m',
   'n','o','p','q','r','s','t','u','v','w','x','y','z',
   '0','1','2','3','4','5','6','7','8','9','+','/']

/-- Character for a six-bit group (all call sites pass values below 64). -/
def b64Char (n : Nat) : Char := b64Alphabet.getD (n % 64) 'A'

/-- Index of a character in the base64 alphabet (64 when absent). -/
def b64Val (c : Char) : Nat := b64Alphabet.indexOf c

/-- Standard padded base64 of a byte sequence (`Buffer.toString('base64')`). -/
def base64Encode : List Nat → List Char
  | [] => []
  | [a] => [b64Char (a / 4), b64Char (a % 4 * 16), '=', '=']
  | [a, b] => [b64Char (a / 4), b64Char (a % 4 * 16 + b / 16), b64Char (b % 16 * 4), '=']
  | a :: b :: c :: rest =>
      b64Char (a / 4) :: b64Char (a % 4 * 16 + b / 16) ::
      b64Char (b % 16 * 4 + c / 64) :: b64Char (c % 64) :: base64Encode rest

/-- Inverse of `base64Encode`, reading four characters at a time. -/
def base64Decode : List Char → List Nat
  | c1 :: c2 :: c3 :: c4 :: rest =>
      if c3 = '=' then [b64Val c1 * 4 + b64Val c2 / 16]
      else if c4 = '=' then
        [b64Val c1 * 4 + b64Val c2 / 16, b64Val c2 % 16 * 16 + b64Val c3 / 4]
      else
        (b64Val c1 * 4 + b64Val c2 / 16) :: (b64Val c2 % 16 * 16 + b64Val c3 / 4) ::
        (b64Val c3 % 4 * 64 + b64Val c4) :: base64Decode rest
  | _ => []

/-- The cache key characters:
`` `codegen:${model}:${language}:${Buffer.from(prompt).toString('base64')}` ``
applied to already-encoded prompt bytes. -/
def cacheKeyChars (model language : String) (promptBytes : List Nat) : List Char :=
  "codegen:".data ++ model.data ++ ':' :: language.data ++ ':' :: base64Encode promptBytes

/-- Cache key as a string, from prompt bytes. -/
def cacheKeyOfBytes (model language : String) (promptBytes : List Nat) : String :=
  String.mk (cacheKeyChars model language promptBytes)

/-- Cache key computed by the handler from the prompt string. -/
def cacheKeyStr (model language prompt : String) : String :=
  cacheKeyOfBytes model language (strBytes prompt.data)

/-- One global `String.prototype.replace` pass for a two-character pattern
`\\` followed by `tgt`, replaced by the single character `rep`: leftmost,
non-overlapping, the replacement is not rescanned. -/
def replacePair (tgt rep : Char) : List Char → List Char
  | [] => []
  | [c] => [c]
  | c :: d :: rest =>
      if c = '\\' ∧ d = tgt then rep :: replacePair tgt rep rest
      else c :: replacePair tgt rep (d :: rest)

/-- Code points treated as whitespace by `String.prototype.trim`. -/
def jsWhitespaceCodes : List Nat :=
  [9, 10, 11, 12, 13, 32, 160, 5760, 8192, 8193, 8194, 8195, 8196, 8197,
   8198, 8199, 8200, 8201, 8202, 8232, 8233, 8239, 8287, 12288, 65279]

/-- Whitespace test for `trim`. -/
def isJsWhitespace (c : Char) : Bool := jsWhitespaceCodes.contains c.toNat

/-- `String.prototype.trim`: drop whitespace from both ends. -/
def trimChars (l : List Char) : List Char :=
  ((l.dropWhile isJsWhitespace).reverse.dropWhile isJsWhitespace).reverse

/-- The normalization chain of `server.js`:
`result.code.replace(/\\n/g,'\n').replace(/\\t/g,'\t').replace(/\\"/g,'"').trim()`. -/
def cleanCode (s : String) : String :=
  String.mk (trimChars (replacePair '"' '"' (replacePair 't' '\t' (replacePair 'n' '\n' s.data))))

/-- Does the two-character sequence `a b` occur anywhere in the list? -/
def hasPair (a b : Char) : List Char → Bool
  | x :: y :: rest => (x == a && y == b) || hasPair a b (y :: rest)
  | _ => false

/-- A JSON request body: each field may be absent (`undefined`). -/
structure Request where
  prompt : Option String
  language : Option String
  model : Option String
deriving DecidableEq

/-- A JavaScript value in the `code` position of the upstream body: a string,
`undefined` (absent field), or some other non-string value. -/
inductive JsVal where
  | str : String → JsVal
  | undef : JsVal
  | num : Int → JsVal
deriving DecidableEq

/-- Parsed upstream response body (`response.data`). -/
structure UpstreamData where
  code : JsVal
  explanation : Option String
deriving DecidableEq

/-- The `error.response` object attached by axios to HTTP-status failures. -/
structure HttpErrResponse where
  status : Nat
  dataMessage : Option String
deriving DecidableEq

/-- A thrown JS error as observed by the catch handler: an optional attached
HTTP response, and a message. -/
structure JsError where
  response : Option HttpErrResponse
  message : String
deriving DecidableEq

/-- The response JSON body; absent fields are `none`. -/
structure ResponseBody where
  status : Bool
  error : Option String
  code : Option String
  explanation : Option String
  model : Option String
  language : Option String
  cached : Option Bool
  retryable : Option Bool
deriving DecidableEq

/-- Outcome of one handler invocation: HTTP status, body, and the observable
effects (was Redis read, was the upstream called, what was written). -/
structure HandlerResult where
  statusCode : Nat
  body : ResponseBody
  upstreamCalled : Bool
  cacheAccessed : Bool
  cacheWrite : Option (String × Nat × String)
deriving DecidableEq

/-- `` `Request failed: ${error.response?.data?.message || error.message}` ``. -/
def errorMessageOf (e : JsError) : String :=
  "Request failed: " ++
    match e.response with
    | some r =>
        match r.dataMessage with
        | some d => if d = "" then e.message else d
        | none => e.message
    | none => e.message

/-- `!error.response || error.response.status >= 500`. -/
def retryableOf (e : JsError) : Bool :=
  match e.response with
  | none => true
  | some r => 500 ≤ r.status

/-- The catch handler: `res.status(500).json({status:false, error, retryable})`. -/
def catchResult (e : JsError) (up acc : Bool) : HandlerResult :=
  { statusCode := 500
    body := { status := false, error := some (errorMessageOf e), code := none,
              explanation := none, model := none, language := none,
              cached := none, retryable := some (retryableOf e) }
    upstreamCalled := up
    cacheAccessed := acc
    cacheWrite := none }

/-- The `TypeError` thrown by `Buffer.from(undefined)` when the prompt is
missing; it carries no HTTP response. -/
def bufferTypeError : JsError :=
  ⟨none, "The first argument must be of type string. Received undefined"⟩

/-- The `TypeError` thrown by `result.code.replace(...)` when `code` is not a
string; it carries no HTTP response. -/
def codeTypeError (v : JsVal) : JsError :=
  ⟨none, match v with
         | JsVal.undef => "Cannot read properties of undefined"
         | _ => "result.code.replace is not a function"⟩

/-- The property names every object literal inherits from
`Object.prototype`; bracket access on `CONFIG.models` finds these even
though they are not own keys, and each of their values is truthy (a
function, or `Object.prototype` itself for `__proto__`). -/
def objectPrototypeKeys : List String :=
  ["constructor", "hasOwnProperty", "isPrototypeOf", "propertyIsEnumerable",
   "toLocaleString", "toString", "valueOf", "__proto__",
   "__defineGetter__", "__defineSetter__", "__lookupGetter__",
   "__lookupSetter__"]

/-- Truthiness of the JS bracket access `CONFIG.models[model]`: an own key
yields the model record, otherwise the prototype chain is consulted, so a
name inherited from `Object.prototype` is also truthy; anything else is
`undefined`, hence falsy. -/
def modelLookupTruthy (model : String) : Bool :=
  (CONFIG_models.lookup model).isSome || objectPrototypeKeys.contains model

/-- The `/api/generate` handler, parameterised by the outcome of the Redis
`get`, of the axios `post`, and of the Redis `setEx` (each may throw a
`JsError`, which the surrounding try/catch turns into a 500 response).
The model check `!CONFIG.models[model]` is bracket access and therefore
sees `Object.prototype`'s inherited properties, not just the five own
keys. -/
def handle (req : Request) (getRes : Except JsError (Option String))
    (upRes : Except JsError UpstreamData) (setRes : Except JsError Unit) :
    HandlerResult :=
  let language := req.language.getD "JavaScript"
  let model := req.model.getD "gpt-4o-mini"
  if language ∈ CONFIG_languages then
    if modelLookupTruthy model then
      match req.prompt with
      | none => catchResult bufferTypeError false false
      | some prompt =>
        let cacheKey := cacheKeyStr model language prompt
        match getRes with
        | Except.error e => catchResult e false true
        | Except.ok cachedVal =>
          if (match cachedVal with | some v => !(v == "") | none => false : Bool) then
            { statusCode := 200
              body := { status := true, error := none, code := cachedVal,
                        explanation := none, model := none, language := none,
                        cached := some true, retryable := none }
              upstreamCalled := false
              cacheAccessed := true
              cacheWrite := none }
          else
            match upRes with
            | Except.error e => catchResult e true true
            | Except.ok result =>
              match result.code with
              | JsVal.str raw =>
                let cc := cleanCode raw
                if cc ≠ "" then
                  match setRes with
                  | Except.error e => catchResult e true true
                  | Except.ok _ =>
                    { statusCode := 200
                      body := { status := true, error := none, code := some cc,
                                explanation := result.explanation,
                                model := some model, language := some language,
                                cached := some false, retryable := none }
                      upstreamCalled := true
                      cacheAccessed := true
                      cacheWrite := some (cacheKey, CONFIG_cacheTTL, cc) }
                else
                  { statusCode := 200
                    body := { status := true, error := none,
                              code := some "No code generated.",
                              explanation := result.explanation,
                              model := some model, language := some language,
                              cached := some false, retryable := none }
                    upstreamCalled := true
                    cacheAccessed := true
                    cacheWrite := none }
              | v => catchResult (codeTypeError v) true true
    else
      { statusCode := 400
        body := { status := false,
                  error := some ("Unsupported model. Available: " ++
                    String.intercalate ", " (CONFIG_models.map Prod.fst)),
                  code := none, explanation := none, model := none,
                  language := none, cached := none, retryable := none }
        upstreamCalled := false
        cacheAccessed := false
        cacheWrite := none }
  else
    { statusCode := 400
      body := { status := false,
                error := some ("Unsupported language. Available: " ++
                  String.intercalate ", " CONFIG_languages),
                code := none, explanation := none, model := none,
                language := none, cached := none, retryable := none }
      upstreamCalled := false
      cacheAccessed := false
      cacheWrite := none }

/-- Redis contents: key to (value, absolute expiry time). -/
def Cache : Type := String → Option (String × Nat)

/-- Redis `GET`: a stored value is visible while the current time is before
its expiry. -/
def redisGet (cache : Cache) (key : String) (now : Nat) : Option String :=
  match cache key with
  | some (v, expiresAt) => if now < expiresAt then some v else none
  | none => none

/-- Redis `SETEX key ttl v` at time `now`. -/
def setEx (cache : Cache) (key : String) (ttl : Nat) (v : String) (now : Nat) : Cache :=
  fun k => if k = key then some (v, now + ttl) else cache k

/-- One request served against a live Redis at time `now` (cache operations
succeed); returns the handler outcome and the cache state afterwards. -/
def runWithCache (req : Request) (cache : Cache) (now : Nat)
    (upRes : Except JsError UpstreamData) : HandlerResult × Cache :=
  let language := req.language.getD "JavaScript"
  let model := req.model.getD "gpt-4o-mini"
  let getRes : Except JsError (Option String) :=
    match req.prompt with
    | some p => Except.ok (redisGet cache (cacheKeyStr model language p) now)
    | none => Except.ok none
  let r := handle req getRes upRes (Except.ok ())
  let cache' : Cache :=
    match r.cacheWrite with
    | some (k, ttl, v) => setEx cache k ttl v now
    | none => cache
  (r, cache')

/-! ### Base64 and cache-key lemmas -/

theorem b64Val_b64Char : ∀ n, n < 64 → b64Val (b64Char n) = n := by decide

theorem b64Char_ne_pad (n : Nat) : b64Char n ≠ '=' := by
  have h : ∀ m, m < 64 → b64Alphabet.getD m 'A' ≠ '=' := by decide
  have hm := h (n % 64) (Nat.mod_lt _ (by omega))
  simpa [b64Char] using hm

theorem b64Char_ne_colon (n : Nat) : b64Char n ≠ ':' := by
  have h : ∀ m, m < 64 → b64Alphabet.getD m 'A' ≠ ':' := by decide
  have hm := h (n % 64) (Nat.mod_lt _ (by omega))
  simpa [b64Char] using hm

theorem base64Decode_encode :
    ∀ l : List Nat, (∀ b ∈ l, b < 256) → base64Decode (base64Encode l) = l := by
  intro l
  induction l using base64Encode.induct with
  | case1 =>
    intro _; rfl
  | case2 a =>
    intro h
    have ha : a < 256 := h a (by simp)
    show base64Decode [b64Char (a / 4), b64Char (a % 4 * 16), '=', '='] = [a]
    rw [base64Decode, if_pos rfl,
      b64Val_b64Char _ (by omega), b64Val_b64Char _ (by omega)]
    have : a / 4 * 4 + a % 4 * 16 / 16 = a := by omega
    rw [this]
  | case3 a b =>
    intro h
    have ha : a < 256 := h a (by simp)
    have hb : b < 256 := h b (by simp)
    show base64Decode
        [b64Char (a / 4), b64Char (a % 4 * 16 + b / 16), b64Char (b % 16 * 4), '='] = [a, b]
    rw [base64Decode, if_neg (b64Char_ne_pad _), if_pos rfl,
      b64Val_b64Char _ (by omega), b64Val_b64Char _ (by omega),
      b64Val_b64Char _ (by omega)]
    have h1 : a / 4 * 4 + (a % 4 * 16 + b / 16) / 16 = a := by omega
    have h2 : (a % 4 * 16 + b / 16) % 16 * 16 + b % 16 * 4 / 4 = b := by omega
    rw [h1, h2]
  | case4 a b c rest ih =>
    intro h
    have ha : a < 256 := h a (by simp)
    have hb : b < 256 := h b (by simp)
    have hc : c < 256 := h c (by simp)
    have hrest : ∀ x ∈ rest, x < 256 := fun x hx => h x (by simp [hx])
    show base64Decode
        (b64Char (a / 4) :: b64Char (a % 4 * 16 + b / 16) ::
          b64Char (b % 16 * 4 + c / 64) :: b64Char (c % 64) :: base64Encode rest)
        = a :: b :: c :: rest
    rw [base64Decode, if_neg (b64Char_ne_pad _), if_neg (b64Char_ne_pad _),
      b64Val_b64Char _ (by omega), b64Val_b64Char _ (by omega),
      b64Val_b64Char _ (by omega), b64Val_b64Char _ (by omega), ih hrest]
    have h1 : a / 4 * 4 + (a % 4 * 16 + b / 16) / 16 = a := by omega
    have h2 : (a % 4 * 16 + b / 16) % 16 * 16 + (b % 16 * 4 + c / 64) / 4 = b := by omega
    have h3 : (b % 16 * 4 + c / 64) % 4 * 64 + c % 64 = c := by omega
    rw [h1, h2, h3]

theorem base64Encode_injOn {l₁ l₂ : List Nat}
    (h₁ : ∀ b ∈ l₁, b < 256) (h₂ : ∀ b ∈ l₂, b < 256)
    (h : base64Encode l₁ = base64Encode l₂) : l₁ = l₂ := by
  rw [← base64Decode_encode l₁ h₁, ← base64Decode_encode l₂ h₂, h]

theorem base64Encode_no_colon : ∀ l : List Nat, ':' ∉ base64Encode l := by
  intro l
  induction l using base64Encode.induct with
  | case1 => simp [base64Encode]
  | case2 a =>
    intro hmem
    simp only [base64Encode, List.mem_cons, List.not_mem_nil, or_false] at hmem
    rcases hmem with h | h | h | h <;>
      first
        | exact b64Char_ne_colon _ h.symm
        | exact absurd h (by decide)
  | case3 a b =>
    intro hmem
    simp only [base64Encode, List.mem_cons, List.not_mem_nil, or_false] at hmem
    rcases hmem with h | h | h | h <;>
      first
        | exact b64Char_ne_colon _ h.symm
        | exact absurd h (by decide)
  | case4 a b c rest ih =>
    intro hmem
    simp only [base64Encode, List.mem_cons] at hmem
    rcases hmem with h | h | h | h | h
    · exact b64Char_ne_colon _ h.symm
    · exact b64Char_ne_colon _ h.symm
    · exact b64Char_ne_colon _ h.symm
    · exact b64Char_ne_colon _ h.symm
    · exact ih h

/-- Splitting an append at a delimiter that appears in neither left part. -/
theorem colon_split :
    ∀ xs xs' ys ys' : List Char, ':' ∉ xs → ':' ∉ xs' →
      xs ++ ':' :: ys = xs' ++ ':' :: ys' → xs = xs' ∧ ys = ys' := by
  intro xs
  induction xs with
  | nil =>
    intro xs' ys ys' _ hx' h
    cases xs' with
    | nil => simpa using h
    | cons c t =>
      simp only [List.nil_append, List.cons_append, List.cons.injEq] at h
      exact absurd (by simp [← h.1]) hx'
  | cons c t ih =>
    intro xs' ys ys' hx hx' h
    cases xs' with
    | nil =>
      simp only [List.cons_append, List.nil_append, List.cons.injEq] at h
      exact absurd (by simp [h.1]) hx
    | cons c' t' =>
      simp only [List.cons_append, List.cons.injEq] at h
      obtain ⟨hcc, htt⟩ := h
      have hxt : ':' ∉ t := fun hm => hx (by simp [hm])
      have hxt' : ':' ∉ t' := fun hm => hx' (by simp [hm])
      obtain ⟨h1, h2⟩ := ih t' ys ys' hxt hxt' htt
      exact ⟨by rw [hcc, h1], h2⟩

/-- A key present in an association-list lookup is one of its keys. -/
theorem lookup_isSome_mem_keys :
    ∀ (l : List (String × ModelInfo)) (m : String),
      (l.lookup m).isSome = true → m ∈ l.map Prod.fst := by
  intro l
  induction l with
  | nil => intro m h; simp [List.lookup] at h
  | cons p t ih =>
    intro m h
    by_cases hm : m = p.1
    · simp [hm]
    · have hbeq : (m == p.1) = false := by simpa using hm
      rw [List.lookup, hbeq] at h
      simp [ih m h]

theorem model_no_colon {m : String}
    (hm : (CONFIG_models.lookup m).isSome = true) : ':' ∉ m.data := by
  have hmem := lookup_isSome_mem_keys CONFIG_models m hm
  have : m ∈ ["gpt-4o-mini", "gpt-4o", "gpt-4-turbo", "claude-3-opus",
      "claude-3-5-sonnet"] := by
    simpa [CONFIG_models] using hmem
  simp only [List.mem_cons, List.not_mem_nil, or_false] at this
  rcases this with rfl | rfl | rfl | rfl | rfl <;> decide

theorem language_no_colon {l : String}
    (hl : l ∈ CONFIG_languages) : ':' ∉ l.data := by
  simp only [CONFIG_languages, List.mem_cons, List.not_mem_nil, or_false] at hl
  rcases hl with rfl | rfl | rfl | rfl | rfl | rfl | rfl | rfl <;> decide

/-- C5: the cache-key encoding is deterministic and injective on valid inputs:
for supported models and languages and arbitrary prompt byte sequences,
encoding the same triple twice yields the identical key string, and two
triples that differ in the model, the language, or any prompt byte yield
different keys. -/
theorem cacheKey_deterministic_and_injective
    (m₁ m₂ l₁ l₂ : String) (p₁ p₂ : List Nat)
    (hm₁ : (CONFIG_models.lookup m₁).isSome = true)
    (hm₂ : (CONFIG_models.lookup m₂).isSome = true)
    (hl₁ : l₁ ∈ CONFIG_languages) (hl₂ : l₂ ∈ CONFIG_languages)
    (hp₁ : ∀ b ∈ p₁, b < 256) (hp₂ : ∀ b ∈ p₂, b < 256) :
    cacheKeyOfBytes m₁ l₁ p₁ = cacheKeyOfBytes m₁ l₁ p₁ ∧
    (cacheKeyOfBytes m₁ l₁ p₁ = cacheKeyOfBytes m₂ l₂ p₂ →
      m₁ = m₂ ∧ l₁ = l₂ ∧ p₁ = p₂) := by
  refine ⟨rfl, fun h => ?_⟩
  have hdata : cacheKeyChars m₁ l₁ p₁ = cacheKeyChars m₂ l₂ p₂ := congrArg String.data h
  unfold cacheKeyChars at hdata
  simp only [List.append_assoc, List.cons_append, List.nil_append,
    List.cons.injEq, true_and] at hdata
  have h1 := hdata
  obtain ⟨hm, hrest⟩ :=
    colon_split _ _ _ _ (model_no_colon hm₁) (model_no_colon hm₂) h1
  obtain ⟨hl, henc⟩ :=
    colon_split _ _ _ _ (language_no_colon hl₁) (language_no_colon hl₂) hrest
  have hp := base64Encode_injOn hp₁ hp₂ henc
  refine ⟨?_, ?_, hp⟩
  · cases m₁; cases m₂; exact congrArg String.mk hm
  · cases l₁; cases l₂; exact congrArg String.mk hl

theorem cacheKey_deterministic_and_injective_witness :
    cacheKeyOfBytes "gpt-4o" "JavaScript" [72, 105] =
      cacheKeyOfBytes "gpt-4o" "JavaScript" [72, 105] ∧
    (cacheKeyOfBytes "gpt-4o" "JavaScript" [72, 105] =
        cacheKeyOfBytes "gpt-4o" "JavaScript" [72, 105] →
      "gpt-4o" = "gpt-4o" ∧ "JavaScript" = "JavaScript" ∧
        ([72, 105] : List Nat) = [72, 105]) :=
  cacheKey_deterministic_and_injective "gpt-4o" "gpt-4o" "JavaScript" "JavaScript"
    [72, 105] [72, 105] (by decide) (by decide) (by decide) (by decide)
    (by decide) (by decide)

/-! ### Normalization lemmas -/

theorem hasPair_tail (a b x : Char) (l : List Char)
    (h : hasPair a b (x :: l) = false) : hasPair a b l = false := by
  cases l with
  | nil => rfl
  | cons y t =>
    rw [hasPair] at h
    simp only [Bool.or_eq_false_iff] at h
    exact h.2

theorem hasPair_cons (a b x : Char) (l : List Char) :
    hasPair a b (x :: l) =
      ((x == a && (match l.head? with | some y => y == b | none => false)) ||
        hasPair a b l) := by
  cases l <;> simp [hasPair]

theorem replacePair_head (tgt rep d : Char) (rest : List Char) :
    (replacePair tgt rep (d :: rest)).head? =
      some (if d = '\\' ∧ rest.head? = some tgt then rep else d) := by
  cases rest with
  | nil => simp [replacePair]
  | cons e r =>
    by_cases h : d = '\\' ∧ e = tgt
    · simp [replacePair, h]
    · rw [replacePair, if_neg h]
      simp only [List.head?_cons, Option.some.injEq]
      rw [if_neg (by simpa using h)]

/-- A global replace of `\\tgt` by `rep` leaves no `\\tgt` pair behind, as
long as the replacement character can re-form the pattern on neither side. -/
theorem replacePair_removes (tgt rep : Char) (h1 : rep ≠ '\\') (h2 : rep ≠ tgt) :
    ∀ l, hasPair '\\' tgt (replacePair tgt rep l) = false := by
  intro l
  induction l using replacePair.induct tgt rep with
  | case1 => rfl
  | case2 c => rfl
  | case3 c d rest h ih =>
    rw [replacePair, if_pos h, hasPair_cons]
    simp only [Bool.or_eq_false_iff, Bool.and_eq_false_iff]
    exact ⟨Or.inl (by simpa using h1), ih⟩
  | case4 c d rest h ih =>
    rw [replacePair, if_neg h, hasPair_cons, replacePair_head]
    simp only [Bool.or_eq_false_iff]
    refine ⟨?_, ih⟩
    by_cases hd : d = '\\' ∧ rest.head? = some tgt
    · rw [if_pos hd]
      simp [h2]
    · rw [if_neg hd]
      by_cases hc : c = '\\'
      · have hdt : d ≠ tgt := fun hdt => h ⟨hc, hdt⟩
        simp [hdt]
      · simp [hc]

/-- A global replace of `\\tgt` by `rep` creates no new `\\x` pair for a
different escape letter `x`. -/
theorem replacePair_preserves (tgt rep x : Char) (h1 : rep ≠ '\\') (h2 : rep ≠ x) :
    ∀ l, hasPair '\\' x l = false → hasPair '\\' x (replacePair tgt rep l) = false := by
  intro l
  induction l using replacePair.induct tgt rep with
  | case1 => intro _; rfl
  | case2 c => intro _; rfl
  | case3 c d rest h ih =>
    intro hin
    have hrest : hasPair '\\' x rest = false :=
      hasPair_tail _ _ _ _ (hasPair_tail _ _ _ _ hin)
    rw [replacePair, if_pos h, hasPair_cons]
    simp only [Bool.or_eq_false_iff, Bool.and_eq_false_iff]
    exact ⟨Or.inl (by simpa using h1), ih hrest⟩
  | case4 c d rest h ih =>
    intro hin
    rw [hasPair] at hin
    simp only [Bool.or_eq_false_iff] at hin
    obtain ⟨hpair, htl⟩ := hin
    rw [replacePair, if_neg h, hasPair_cons, replacePair_head]
    simp only [Bool.or_eq_false_iff]
    refine ⟨?_, ih htl⟩
    by_cases hd : d = '\\' ∧ rest.head? = some tgt
    · rw [if_pos hd]
      simp [h2]
    · rw [if_neg hd]
      simpa using hpair

theorem hasPair_append_right (a b : Char) :
    ∀ s l : List Char, hasPair a b (s ++ l) = false → hasPair a b l = false := by
  intro s
  induction s with
  | nil => intro l h; exact h
  | cons x s ih =>
    intro l h
    exact ih l (hasPair_tail _ _ _ _ h)

theorem hasPair_append_left (a b : Char) :
    ∀ l t : List Char, hasPair a b (l ++ t) = false → hasPair a b l = false := by
  intro l
  induction l with
  | nil => intro t _; rfl
  | cons x l ih =>
    intro t h
    cases l with
    | nil => rfl
    | cons y l' =>
      simp only [List.cons_append] at h
      rw [hasPair] at h
      simp only [Bool.or_eq_false_iff] at h
      obtain ⟨hxy, htl⟩ := h
      have h2 : hasPair a b (y :: l') = false := by
        apply ih t
        simpa [List.cons_append] using htl
      rw [hasPair]
      simp [hxy, h2]

theorem dropWhile_decomp (p : Char → Bool) :
    ∀ l : List Char, ∃ s, l = s ++ l.dropWhile p := by
  intro l
  induction l with
  | nil => exact ⟨[], rfl⟩
  | cons x t ih =>
    by_cases h : p x
    · obtain ⟨s, hs⟩ := ih
      refine ⟨x :: s, ?_⟩
      simp only [List.dropWhile_cons, h, if_true, List.cons_append]
      rw [← hs]
    · refine ⟨[], ?_⟩
      simp [List.dropWhile_cons, h]

theorem trimChars_decomp (l : List Char) : ∃ s t, l = s ++ trimChars l ++ t := by
  obtain ⟨s, hs⟩ := dropWhile_decomp isJsWhitespace l
  obtain ⟨u, hu⟩ :=
    dropWhile_decomp isJsWhitespace (l.dropWhile isJsWhitespace).reverse
  refine ⟨s, u.reverse, ?_⟩
  have hmid : l.dropWhile isJsWhitespace = trimChars l ++ u.reverse := by
    have h2 := congrArg List.reverse hu
    simpa [trimChars, List.reverse_append] using h2
  conv_lhs => rw [hs, hmid]
  rw [List.append_assoc]

theorem hasPair_trimChars (a b : Char) (l : List Char)
    (h : hasPair a b l = false) : hasPair a b (trimChars l) = false := by
  obtain ⟨s, t, hst⟩ := trimChars_decomp l
  rw [hst] at h
  exact hasPair_append_right a b s _ (hasPair_append_left a b _ t h)

/-- C6 counterexample: normalization does not remove every residual escape
marker.  On the three-character input `\\"` the quote pass rewrites the final
`\"` to `"`, leaving the pair backslash–quote — exactly the escaped-quote
marker — in the output. -/
theorem cleanCode_residual_quote_marker :
    cleanCode "\\\\\"" = "\\\"" ∧
    hasPair '\\' '"' (cleanCode "\\\\\"").data = true := by
  exact ⟨rfl, rfl⟩

/-- C6 (amended): normalization applies, in order, the global replacement of
literal `\n` by a newline, of literal `\t` by a tab, of literal `\"` by a
quote, and then trims leading and trailing whitespace; no residual
backslash–n or backslash–t marker remains, but a backslash–quote marker can
remain (the replacement character `"` can re-form the pattern with a
preceding backslash). -/
theorem cleanCode_ordered_and_no_residual_newline_tab (s : String) :
    (cleanCode s).data =
      trimChars (replacePair '"' '"' (replacePair 't' '\t'
        (replacePair 'n' '\n' s.data))) ∧
    hasPair '\\' 'n' (cleanCode s).data = false ∧
    hasPair '\\' 't' (cleanCode s).data = false := by
  refine ⟨rfl, ?_, ?_⟩
  · apply hasPair_trimChars
    apply replacePair_preserves '"' '"' 'n' (by decide) (by decide)
    apply replacePair_preserves 't' '\t' 'n' (by decide) (by decide)
    exact replacePair_removes 'n' '\n' (by decide) (by decide) s.data
  · apply hasPair_trimChars
    apply replacePair_preserves '"' '"' 't' (by decide) (by decide)
    exact replacePair_removes 't' '\t' (by decide) (by decide) _

/-! ### Pipeline theorems -/

/-- C1: for a valid request whose first run completes successfully with a
non-empty normalized result (stored under the request's key), an identical
request issued while the entry is within the TTL window is served from the
cache with `cached: true` and performs no upstream invocation, whatever the
upstream oracle would have answered. -/
theorem repeat_request_within_ttl_served_from_cache
    (req : Request) (p : String) (cache : Cache) (now now2 : Nat)
    (up2 : Except JsError UpstreamData) (d : UpstreamData) (s : String)
    (hl : req.language.getD "JavaScript" ∈ CONFIG_languages)
    (hm : (CONFIG_models.lookup (req.model.getD "gpt-4o-mini")).isSome = true)
    (hp : req.prompt = some p)
    (hfresh : cache (cacheKeyStr (req.model.getD "gpt-4o-mini")
      (req.language.getD "JavaScript") p) = none)
    (hd : d.code = JsVal.str s)
    (hne : cleanCode s ≠ "")
    (hwindow : now2 < now + CONFIG_cacheTTL) :
    (runWithCache req cache now (Except.ok d)).1.body.status = true ∧
    (runWithCache req cache now (Except.ok d)).1.upstreamCalled = true ∧
    (runWithCache req (runWithCache req cache now (Except.ok d)).2 now2 up2).1.body.status
      = true ∧
    (runWithCache req (runWithCache req cache now (Except.ok d)).2 now2 up2).1.body.cached
      = some true ∧
    (runWithCache req (runWithCache req cache now (Except.ok d)).2 now2 up2).1.body.code
      = some (cleanCode s) ∧
    (runWithCache req (runWithCache req cache now (Except.ok d)).2 now2 up2).1.upstreamCalled
      = false := by
  have hrun1 : (runWithCache req cache now (Except.ok d)).2 =
      setEx cache (cacheKeyStr (req.model.getD "gpt-4o-mini")
        (req.language.getD "JavaScript") p) CONFIG_cacheTTL (cleanCode s) now := by
    simp [runWithCache, handle, modelLookupTruthy, hl, hm, hp, hd, hne, redisGet, hfresh]
  have hget2 : redisGet (runWithCache req cache now (Except.ok d)).2
      (cacheKeyStr (req.model.getD "gpt-4o-mini") (req.language.getD "JavaScript") p) now2 =
      some (cleanCode s) := by
    rw [hrun1]
    simp [redisGet, setEx, hwindow]
  refine ⟨?_, ?_, ?_, ?_, ?_, ?_⟩ <;>
    simp [runWithCache, handle, modelLookupTruthy, hl, hm, hp, hd, hne, redisGet, hfresh, hget2, setEx,
      hwindow]

theorem repeat_request_within_ttl_served_from_cache_witness :
    cleanCode "x" ≠ "" ∧
    (runWithCache ⟨some "hi", none, none⟩
        (runWithCache ⟨some "hi", none, none⟩ (fun _ => none) 0
          (Except.ok ⟨JsVal.str "x", none⟩)).2 1
        (Except.ok ⟨JsVal.str "y", none⟩)).1.body.cached = some true ∧
    (runWithCache ⟨some "hi", none, none⟩
        (runWithCache ⟨some "hi", none, none⟩ (fun _ => none) 0
          (Except.ok ⟨JsVal.str "x", none⟩)).2 1
        (Except.ok ⟨JsVal.str "y", none⟩)).1.upstreamCalled = false :=
  ⟨by decide,
    (repeat_request_within_ttl_served_from_cache ⟨some "hi", none, none⟩ "hi"
      (fun _ => none) 0 1 (Except.ok ⟨JsVal.str "y", none⟩) ⟨JsVal.str "x", none⟩ "x"
      (by decide) (by decide) rfl rfl rfl (by decide) (by decide)).2.2.2.1,
    (repeat_request_within_ttl_served_from_cache ⟨some "hi", none, none⟩ "hi"
      (fun _ => none) 0 1 (Except.ok ⟨JsVal.str "y", none⟩) ⟨JsVal.str "x", none⟩ "x"
      (by decide) (by decide) rfl rfl rfl (by decide) (by decide)).2.2.2.2.2⟩

/-- C2 counterexample: a failing Redis `get` is not treated as a cache miss —
it falls into the catch-all handler, so the upstream client is never called
and a 500 failure body is returned to the caller. -/
theorem cache_get_error_aborts_request :
    (handle ⟨some "p", none, none⟩ (Except.error ⟨none, "redis down"⟩)
      (Except.ok ⟨JsVal.str "x", none⟩) (Except.ok ())).upstreamCalled = false ∧
    (handle ⟨some "p", none, none⟩ (Except.error ⟨none, "redis down"⟩)
      (Except.ok ⟨JsVal.str "x", none⟩) (Except.ok ())).statusCode = 500 ∧
    (handle ⟨some "p", none, none⟩ (Except.error ⟨none, "redis down"⟩)
      (Except.ok ⟨JsVal.str "x", none⟩) (Except.ok ())).body.status = false ∧
    (handle ⟨some "p", none, none⟩ (Except.error ⟨none, "redis down"⟩)
      (Except.ok ⟨JsVal.str "x", none⟩) (Except.ok ())).body.error.isSome = true := by
  decide

/-- C2 (amended): a cache-backend failure is not absorbed: a failing `get`
aborts the request before the upstream call and a failing `setEx` aborts the
success response, both surfacing to the caller as a 500-equivalent
`{status: false, retryable: true}` body (the thrown cache error carries no
HTTP response). -/
theorem cache_error_surfaced_as_500
    (req : Request) (p : String) (e e2 : JsError)
    (u : Except JsError UpstreamData) (st : Except JsError Unit)
    (d : UpstreamData) (s : String)
    (hl : req.language.getD "JavaScript" ∈ CONFIG_languages)
    (hm : (CONFIG_models.lookup (req.model.getD "gpt-4o-mini")).isSome = true)
    (hp : req.prompt = some p)
    (he : e.response = none) (he2 : e2.response = none)
    (hd : d.code = JsVal.str s) (hne : cleanCode s ≠ "") :
    (handle req (Except.error e) u st).statusCode = 500 ∧
    (handle req (Except.error e) u st).body.status = false ∧
    (handle req (Except.error e) u st).body.retryable = some true ∧
    (handle req (Except.error e) u st).upstreamCalled = false ∧
    (handle req (Except.ok none) (Except.ok d) (Except.error e2)).statusCode = 500 ∧
    (handle req (Except.ok none) (Except.ok d) (Except.error e2)).body.status = false ∧
    (handle req (Except.ok none) (Except.ok d) (Except.error e2)).body.retryable
      = some true ∧
    (handle req (Except.ok none) (Except.ok d) (Except.error e2)).cacheWrite = none := by
  refine ⟨?_, ?_, ?_, ?_, ?_, ?_, ?_, ?_⟩ <;>
    simp [handle, modelLookupTruthy, hl, hm, hp, he, he2, hd, hne, catchResult, retryableOf]

theorem cache_error_surfaced_as_500_witness :
    cleanCode "x" ≠ "" ∧
    (handle ⟨some "p", none, none⟩ (Except.error ⟨none, "down"⟩)
      (Except.ok ⟨JsVal.str "x", none⟩) (Except.ok ())).body.retryable = some true ∧
    (handle ⟨some "p", none, none⟩ (Except.ok none)
      (Except.ok ⟨JsVal.str "x", none⟩) (Except.error ⟨none, "down"⟩)).statusCode = 500 :=
  ⟨by decide,
    (cache_error_surfaced_as_500 ⟨some "p", none, none⟩ "p" ⟨none, "down"⟩
      ⟨none, "down"⟩ (Except.ok ⟨JsVal.str "x", none⟩) (Except.ok ())
      ⟨JsVal.str "x", none⟩ "x" (by decide) (by decide) rfl rfl rfl rfl
      (by decide)).2.2.1,
    (cache_error_surfaced_as_500 ⟨some "p", none, none⟩ "p" ⟨none, "down"⟩
      ⟨none, "down"⟩ (Except.ok ⟨JsVal.str "x", none⟩) (Except.ok ())
      ⟨JsVal.str "x", none⟩ "x" (by decide) (by decide) rfl rfl rfl rfl
      (by decide)).2.2.2.2.1⟩

/-- C3 counterexample: a request whose prompt is the empty string is not
rejected: it reaches the cache, calls the upstream, and returns a 200-success
body; and a request with no prompt at all yields a 500 response, not a
400-equivalent validation failure. -/
theorem empty_prompt_not_rejected :
    (runWithCache ⟨some "", none, none⟩ (fun _ => none) 0
      (Except.ok ⟨JsVal.str "x", none⟩)).1.statusCode = 200 ∧
    (runWithCache ⟨some "", none, none⟩ (fun _ => none) 0
      (Except.ok ⟨JsVal.str "x", none⟩)).1.cacheAccessed = true ∧
    (runWithCache ⟨some "", none, none⟩ (fun _ => none) 0
      (Except.ok ⟨JsVal.str "x", none⟩)).1.upstreamCalled = true ∧
    (handle ⟨none, none, none⟩ (Except.ok none)
      (Except.ok ⟨JsVal.str "x", none⟩) (Except.ok ())).statusCode = 500 := by
  decide

/-- C3 (amended): the handler performs no prompt validation.  A missing
prompt makes `Buffer.from(undefined)` throw while the cache key is built, and
the catch-all surfaces it as a 500-equivalent `{status: false,
retryable: true}` body with no cache or upstream access; an empty prompt
proceeds through cache lookup and upstream call like any other prompt. -/
theorem prompt_validation_absent
    (req req2 : Request) (g : Except JsError (Option String))
    (u : Except JsError UpstreamData) (st : Except JsError Unit)
    (d : UpstreamData) (s : String)
    (hl : req.language.getD "JavaScript" ∈ CONFIG_languages)
    (hm : (CONFIG_models.lookup (req.model.getD "gpt-4o-mini")).isSome = true)
    (hp : req.prompt = none)
    (hl2 : req2.language.getD "JavaScript" ∈ CONFIG_languages)
    (hm2 : (CONFIG_models.lookup (req2.model.getD "gpt-4o-mini")).isSome = true)
    (hp2 : req2.prompt = some "")
    (hd : d.code = JsVal.str s) :
    (handle req g u st).statusCode = 500 ∧
    (handle req g u st).body.status = false ∧
    (handle req g u st).body.retryable = some true ∧
    (handle req g u st).cacheAccessed = false ∧
    (handle req g u st).upstreamCalled = false ∧
    (handle req2 (Except.ok none) (Except.ok d) (Except.ok ())).statusCode = 200 ∧
    (handle req2 (Except.ok none) (Except.ok d) (Except.ok ())).body.status = true ∧
    (handle req2 (Except.ok none) (Except.ok d) (Except.ok ())).cacheAccessed = true ∧
    (handle req2 (Except.ok none) (Except.ok d) (Except.ok ())).upstreamCalled = true := by
  by_cases hcc : cleanCode s = "" <;>
    · refine ⟨?_, ?_, ?_, ?_, ?_, ?_, ?_, ?_, ?_⟩ <;>
        simp [handle, modelLookupTruthy, hl, hm, hp, hl2, hm2, hp2, hd, hcc, catchResult, retryableOf,
          bufferTypeError]

theorem prompt_validation_absent_witness :
    (⟨none, none, none⟩ : Request).prompt = none ∧
    (handle ⟨none, none, none⟩ (Except.ok none)
      (Except.ok ⟨JsVal.str "x", none⟩) (Except.ok ())).statusCode = 500 ∧
    (handle ⟨some "", none, none⟩ (Except.ok none)
      (Except.ok ⟨JsVal.str "x", none⟩) (Except.ok ())).statusCode = 200 :=
  ⟨rfl,
    (prompt_validation_absent ⟨none, none, none⟩ ⟨some "", none, none⟩
      (Except.ok none) (Except.ok ⟨JsVal.str "x", none⟩) (Except.ok ())
      ⟨JsVal.str "x", none⟩ "x" (by decide) (by decide) rfl (by decide) (by decide)
      rfl rfl).1,
    (prompt_validation_absent ⟨none, none, none⟩ ⟨some "", none, none⟩
      (Except.ok none) (Except.ok ⟨JsVal.str "x", none⟩) (Except.ok ())
      ⟨JsVal.str "x", none⟩ "x" (by decide) (by decide) rfl (by decide) (by decide)
      rfl rfl).2.2.2.2.2.1⟩

/-- C4 counterexample: a malformed upstream body — here `code` is absent —
makes `result.code.replace` throw a `TypeError` without an attached HTTP
response, so the catch handler classifies it `retryable: true`, not the
claimed `retryable: false`. -/
theorem malformed_body_classified_retryable :
    (handle ⟨some "p", none, none⟩ (Except.ok none)
      (Except.ok ⟨JsVal.undef, none⟩) (Except.ok ())).statusCode = 500 ∧
    (handle ⟨some "p", none, none⟩ (Except.ok none)
      (Except.ok ⟨JsVal.undef, none⟩) (Except.ok ())).body.status = false ∧
    (handle ⟨some "p", none, none⟩ (Except.ok none)
      (Except.ok ⟨JsVal.undef, none⟩) (Except.ok ())).body.retryable = some true := by
  decide

/-- C4 (amended): every upstream failure yields a 500-equivalent
`status: false` body whose `retryable` flag is `!error.response ||
error.response.status >= 500`: timeout or network failure (no HTTP response)
gives `true`, an HTTP status of at least 500 gives `true`, a 4xx status gives
`false`, and a malformed response body (a `code` field that is absent or not
a string) throws a response-less `TypeError` and is therefore classified
`retryable: true`. -/
theorem upstream_failure_classification
    (req : Request) (p : String) (e : JsError) (r : HttpErrResponse)
    (d : UpstreamData) (st : Except JsError Unit)
    (hl : req.language.getD "JavaScript" ∈ CONFIG_languages)
    (hm : (CONFIG_models.lookup (req.model.getD "gpt-4o-mini")).isSome = true)
    (hp : req.prompt = some p) :
    (e.response = none →
      (handle req (Except.ok none) (Except.error e) st).statusCode = 500 ∧
      (handle req (Except.ok none) (Except.error e) st).body.status = false ∧
      (handle req (Except.ok none) (Except.error e) st).body.retryable = some true) ∧
    (e.response = some r → 500 ≤ r.status →
      (handle req (Except.ok none) (Except.error e) st).statusCode = 500 ∧
      (handle req (Except.ok none) (Except.error e) st).body.status = false ∧
      (handle req (Except.ok none) (Except.error e) st).body.retryable = some true) ∧
    (e.response = some r → 400 ≤ r.status → r.status < 500 →
      (handle req (Except.ok none) (Except.error e) st).statusCode = 500 ∧
      (handle req (Except.ok none) (Except.error e) st).body.status = false ∧
      (handle req (Except.ok none) (Except.error e) st).body.retryable = some false) ∧
    ((∀ s, d.code ≠ JsVal.str s) →
      (handle req (Except.ok none) (Except.ok d) st).statusCode = 500 ∧
      (handle req (Except.ok none) (Except.ok d) st).body.status = false ∧
      (handle req (Except.ok none) (Except.ok d) st).body.retryable = some true) := by
  refine ⟨fun he => ?_, fun he h5 => ?_, fun he h4 h5 => ?_, fun hcode => ?_⟩
  · refine ⟨?_, ?_, ?_⟩ <;> simp [handle, modelLookupTruthy, hl, hm, hp, he, catchResult, retryableOf]
  · refine ⟨?_, ?_, ?_⟩ <;>
      simp [handle, modelLookupTruthy, hl, hm, hp, he, h5, catchResult, retryableOf]
  · have h5' : ¬(500 ≤ r.status) := by omega
    refine ⟨?_, ?_, ?_⟩ <;>
      simp [handle, modelLookupTruthy, hl, hm, hp, he, h5', catchResult, retryableOf]
  · cases hd : d.code with
    | str s => exact absurd hd (hcode s)
    | undef =>
      refine ⟨?_, ?_, ?_⟩ <;>
        simp [handle, modelLookupTruthy, hl, hm, hp, hd, catchResult, retryableOf, codeTypeError]
    | num k =>
      refine ⟨?_, ?_, ?_⟩ <;>
        simp [handle, modelLookupTruthy, hl, hm, hp, hd, catchResult, retryableOf, codeTypeError]

theorem upstream_failure_classification_witness :
    (⟨some ⟨404, none⟩, "err"⟩ : JsError).response = some ⟨404, none⟩ ∧
    (handle ⟨some "p", none, none⟩ (Except.ok none)
      (Except.error ⟨some ⟨404, none⟩, "err"⟩) (Except.ok ())).body.retryable
      = some false ∧
    (handle ⟨some "p", none, none⟩ (Except.ok none)
      (Except.ok ⟨JsVal.undef, none⟩) (Except.ok ())).body.retryable = some true :=
  ⟨rfl,
    ((upstream_failure_classification ⟨some "p", none, none⟩ "p"
      ⟨some ⟨404, none⟩, "err"⟩ ⟨404, none⟩ ⟨JsVal.undef, none⟩ (Except.ok ())
      (by decide) (by decide) rfl).2.2.1 rfl (by decide) (by decide)).2.2,
    ((upstream_failure_classification ⟨some "p", none, none⟩ "p"
      ⟨some ⟨404, none⟩, "err"⟩ ⟨404, none⟩ ⟨JsVal.undef, none⟩ (Except.ok ())
      (by decide) (by decide) rfl).2.2.2 (fun s h => JsVal.noConfusion h)).2.2⟩

/-- C7: an upstream response whose `code` field normalizes to the empty
string yields a 200 success body carrying the placeholder text, and nothing
is written into the cache: the handler records no write and the cache state
is unchanged. -/
theorem empty_normalized_placeholder_not_cached
    (req : Request) (p : String) (d : UpstreamData) (s : String)
    (st : Except JsError Unit) (cache : Cache) (now : Nat)
    (hl : req.language.getD "JavaScript" ∈ CONFIG_languages)
    (hm : (CONFIG_models.lookup (req.model.getD "gpt-4o-mini")).isSome = true)
    (hp : req.prompt = some p)
    (hd : d.code = JsVal.str s)
    (hclean : cleanCode s = "")
    (hmiss : redisGet cache (cacheKeyStr (req.model.getD "gpt-4o-mini")
      (req.language.getD "JavaScript") p) now = none) :
    (handle req (Except.ok none) (Except.ok d) st).statusCode = 200 ∧
    (handle req (Except.ok none) (Except.ok d) st).body.status = true ∧
    (handle req (Except.ok none) (Except.ok d) st).body.code
      = some "No code generated." ∧
    (handle req (Except.ok none) (Except.ok d) st).cacheWrite = none ∧
    (runWithCache req cache now (Except.ok d)).2 = cache := by
  refine ⟨?_, ?_, ?_, ?_, ?_⟩ <;>
    simp [handle, runWithCache, modelLookupTruthy, hl, hm, hp, hd, hclean, hmiss]

theorem empty_normalized_placeholder_not_cached_witness :
    cleanCode " " = "" ∧
    (handle ⟨some "p", none, none⟩ (Except.ok none)
      (Except.ok ⟨JsVal.str " ", none⟩) (Except.ok ())).body.code
      = some "No code generated." ∧
    (handle ⟨some "p", none, none⟩ (Except.ok none)
      (Except.ok ⟨JsVal.str " ", none⟩) (Except.ok ())).cacheWrite = none :=
  ⟨by decide,
    (empty_normalized_placeholder_not_cached ⟨some "p", none, none⟩ "p"
      ⟨JsVal.str " ", none⟩ " " (Except.ok ()) (fun _ => none) 0 (by decide)
      (by decide) rfl rfl (by decide) rfl).2.2.1,
    (empty_normalized_placeholder_not_cached ⟨some "p", none, none⟩ "p"
      ⟨JsVal.str " ", none⟩ " " (Except.ok ()) (fun _ => none) 0 (by decide)
      (by decide) rfl rfl (by decide) rfl).2.2.2.1⟩

/-- C8 counterexample: the model check is the bracket access
`!CONFIG.models[model]`, which finds properties inherited from
`Object.prototype`.  The model name `constructor` is not among the five
supported models, yet the request passes validation, reaches the Redis
lookup and the upstream call, and returns 200 — not the claimed 400 with no
cache or upstream access. -/
theorem prototype_key_model_passes_validation :
    (CONFIG_models.lookup "constructor").isSome = false ∧
    (handle ⟨some "p", none, some "constructor"⟩ (Except.ok none)
      (Except.ok ⟨JsVal.str "x", none⟩) (Except.ok ())).statusCode = 200 ∧
    (handle ⟨some "p", none, some "constructor"⟩ (Except.ok none)
      (Except.ok ⟨JsVal.str "x", none⟩) (Except.ok ())).cacheAccessed = true ∧
    (handle ⟨some "p", none, some "constructor"⟩ (Except.ok none)
      (Except.ok ⟨JsVal.str "x", none⟩) (Except.ok ())).upstreamCalled = true := by
  decide

/-- C8 (amended): a request whose language is outside `CONFIG.languages`, or
whose model makes the bracket access `CONFIG.models[model]` falsy, receives
a 400 `{status: false, error}` response with neither cache nor upstream
touched; but a model name matching a property inherited from
`Object.prototype` (`constructor`, `toString`, `__proto__`, …) is truthy
under bracket access, so such a request passes validation despite its model
not being in the supported set and proceeds to the cache lookup and the
upstream call. -/
theorem model_validation_via_bracket_lookup
    (req req2 : Request) (g : Except JsError (Option String))
    (u : Except JsError UpstreamData) (st : Except JsError Unit)
    (d : UpstreamData) (s p : String)
    (h : req.language.getD "JavaScript" ∉ CONFIG_languages ∨
      modelLookupTruthy (req.model.getD "gpt-4o-mini") = false)
    (hl2 : req2.language.getD "JavaScript" ∈ CONFIG_languages)
    (hm2 : req2.model.getD "gpt-4o-mini" ∈ objectPrototypeKeys)
    (hp2 : req2.prompt = some p)
    (hd : d.code = JsVal.str s) :
    (handle req g u st).statusCode = 400 ∧
    (handle req g u st).body.status = false ∧
    (handle req g u st).body.error.isSome = true ∧
    (handle req g u st).cacheAccessed = false ∧
    (handle req g u st).upstreamCalled = false ∧
    (handle req g u st).cacheWrite = none ∧
    (handle req2 (Except.ok none) (Except.ok d) (Except.ok ())).statusCode = 200 ∧
    (handle req2 (Except.ok none) (Except.ok d) (Except.ok ())).cacheAccessed = true ∧
    (handle req2 (Except.ok none) (Except.ok d) (Except.ok ())).upstreamCalled
      = true := by
  have hm2' : modelLookupTruthy (req2.model.getD "gpt-4o-mini") = true := by
    simp [modelLookupTruthy, hm2]
  have hA : (handle req g u st).statusCode = 400 ∧
      (handle req g u st).body.status = false ∧
      (handle req g u st).body.error.isSome = true ∧
      (handle req g u st).cacheAccessed = false ∧
      (handle req g u st).upstreamCalled = false ∧
      (handle req g u st).cacheWrite = none := by
    rcases h with h | h
    · simp [handle, h]
    · by_cases hl : req.language.getD "JavaScript" ∈ CONFIG_languages
      · simp [handle, hl, h]
      · simp [handle, hl]
  have hB : (handle req2 (Except.ok none) (Except.ok d) (Except.ok ())).statusCode
        = 200 ∧
      (handle req2 (Except.ok none) (Except.ok d) (Except.ok ())).cacheAccessed
        = true ∧
      (handle req2 (Except.ok none) (Except.ok d) (Except.ok ())).upstreamCalled
        = true := by
    by_cases hcc : cleanCode s = "" <;>
      · refine ⟨?_, ?_, ?_⟩ <;> simp [handle, hl2, hm2', hp2, hd, hcc]
  exact ⟨hA.1, hA.2.1, hA.2.2.1, hA.2.2.2.1, hA.2.2.2.2.1, hA.2.2.2.2.2,
    hB.1, hB.2.1, hB.2.2⟩

theorem model_validation_via_bracket_lookup_witness :
    ((⟨some "p", some "Haskell", none⟩ : Request).language.getD "JavaScript"
      ∉ CONFIG_languages ∨
      modelLookupTruthy ((⟨some "p", some "Haskell", none⟩ : Request).model.getD
        "gpt-4o-mini") = false) ∧
    (handle ⟨some "p", some "Haskell", none⟩ (Except.ok none)
      (Except.ok ⟨JsVal.str "x", none⟩) (Except.ok ())).statusCode = 400 ∧
    (handle ⟨some "p", none, some "toString"⟩ (Except.ok none)
      (Except.ok ⟨JsVal.str "x", none⟩) (Except.ok ())).statusCode = 200 :=
  ⟨Or.inl (by decide),
    (model_validation_via_bracket_lookup ⟨some "p", some "Haskell", none⟩
      ⟨some "p", none, some "toString"⟩ (Except.ok none)
      (Except.ok ⟨JsVal.str "x", none⟩) (Except.ok ()) ⟨JsVal.str "x", none⟩
      "x" "p" (Or.inl (by decide)) (by decide) (by decide) rfl rfl).1,
    (model_validation_via_bracket_lookup ⟨some "p", some "Haskell", none⟩
      ⟨some "p", none, some "toString"⟩ (Except.ok none)
      (Except.ok ⟨JsVal.str "x", none⟩) (Except.ok ()) ⟨JsVal.str "x", none⟩
      "x" "p" (Or.inl (by decide)) (by decide) (by decide) rfl
      rfl).2.2.2.2.2.2.1⟩

/-- C9 counterexample: a cache-hit success response carries neither the
`model` nor the `language` field — it is `{status, code, cached}` only — so
not every success response contains the model and language fields. -/
theorem cache_hit_response_omits_model_language :
    (handle ⟨some "p", none, none⟩ (Except.ok (some "v"))
      (Except.ok ⟨JsVal.str "x", none⟩) (Except.ok ())).body.status = true ∧
    (handle ⟨some "p", none, none⟩ (Except.ok (some "v"))
      (Except.ok ⟨JsVal.str "x", none⟩) (Except.ok ())).body.cached = some true ∧
    (handle ⟨some "p", none, none⟩ (Except.ok (some "v"))
      (Except.ok ⟨JsVal.str "x", none⟩) (Except.ok ())).body.model = none ∧
    (handle ⟨some "p", none, none⟩ (Except.ok (some "v"))
      (Except.ok ⟨JsVal.str "x", none⟩) (Except.ok ())).body.language = none := by
  decide

/-- C9 (amended): a cache-miss success response contains `status: true`, the
code text, the explanation from upstream, the model, the language and
`cached: false`; a cache-hit success response contains only `status: true`,
the cached code text and `cached: true`, omitting the model and language
fields. -/
theorem success_response_fields
    (req : Request) (p cv : String) (d : UpstreamData) (s : String)
    (u : Except JsError UpstreamData)
    (hl : req.language.getD "JavaScript" ∈ CONFIG_languages)
    (hm : (CONFIG_models.lookup (req.model.getD "gpt-4o-mini")).isSome = true)
    (hp : req.prompt = some p)
    (hcv : cv ≠ "") (hd : d.code = JsVal.str s) :
    (handle req (Except.ok (some cv)) u (Except.ok ())).body.status = true ∧
    (handle req (Except.ok (some cv)) u (Except.ok ())).body.code = some cv ∧
    (handle req (Except.ok (some cv)) u (Except.ok ())).body.cached = some true ∧
    (handle req (Except.ok (some cv)) u (Except.ok ())).body.model = none ∧
    (handle req (Except.ok (some cv)) u (Except.ok ())).body.language = none ∧
    (handle req (Except.ok none) (Except.ok d) (Except.ok ())).body.status = true ∧
    (handle req (Except.ok none) (Except.ok d) (Except.ok ())).body.code.isSome = true ∧
    (handle req (Except.ok none) (Except.ok d) (Except.ok ())).body.explanation
      = d.explanation ∧
    (handle req (Except.ok none) (Except.ok d) (Except.ok ())).body.model
      = some (req.model.getD "gpt-4o-mini") ∧
    (handle req (Except.ok none) (Except.ok d) (Except.ok ())).body.language
      = some (req.language.getD "JavaScript") ∧
    (handle req (Except.ok none) (Except.ok d) (Except.ok ())).body.cached
      = some false := by
  by_cases hcc : cleanCode s = "" <;>
    · refine ⟨?_, ?_, ?_, ?_, ?_, ?_, ?_, ?_, ?_, ?_, ?_⟩ <;>
        simp [handle, modelLookupTruthy, hl, hm, hp, hcv, hd, hcc]

theorem success_response_fields_witness :
    ("v" : String) ≠ "" ∧
    (handle ⟨some "p", none, none⟩ (Except.ok (some "v"))
      (Except.ok ⟨JsVal.str "x", some "expl"⟩) (Except.ok ())).body.model = none ∧
    (handle ⟨some "p", none, none⟩ (Except.ok none)
      (Except.ok ⟨JsVal.str "x", some "expl"⟩) (Except.ok ())).body.model
      = some "gpt-4o-mini" :=
  ⟨by decide,
    (success_response_fields ⟨some "p", none, none⟩ "p" "v"
      ⟨JsVal.str "x", some "expl"⟩ "x" (Except.ok ⟨JsVal.str "x", some "expl"⟩)
      (by decide) (by decide) rfl (by decide) rfl).2.2.2.1,
    (success_response_fields ⟨some "p", none, none⟩ "p" "v"
      ⟨JsVal.str "x", some "expl"⟩ "x" (Except.ok ⟨JsVal.str "x", some "expl"⟩)
      (by decide) (by decide) rfl (by decide) rfl).2.2.2.2.2.2.2.2.1⟩

/-- C10: a request answered as a cache hit leaves the cache map unchanged —
no write happens, so the stored value and its expiry are untouched — and the
upstream is not called. -/
theorem cache_hit_leaves_cache_unchanged
    (req : Request) (p v : String) (cache : Cache) (now : Nat)
    (up : Except JsError UpstreamData)
    (hl : req.language.getD "JavaScript" ∈ CONFIG_languages)
    (hm : (CONFIG_models.lookup (req.model.getD "gpt-4o-mini")).isSome = true)
    (hp : req.prompt = some p)
    (hhit : redisGet cache (cacheKeyStr (req.model.getD "gpt-4o-mini")
      (req.language.getD "JavaScript") p) now = some v)
    (hv : v ≠ "") :
    (runWithCache req cache now up).2 = cache ∧
    (runWithCache req cache now up).1.upstreamCalled = false ∧
    (runWithCache req cache now up).1.cacheWrite = none ∧
    (runWithCache req cache now up).1.body.cached = some true ∧
    (runWithCache req cache now up).1.body.code = some v := by
  refine ⟨?_, ?_, ?_, ?_, ?_⟩ <;>
    simp [runWithCache, handle, modelLookupTruthy, hl, hm, hp, hhit, hv]

theorem cache_hit_leaves_cache_unchanged_witness :
    redisGet (fun _ => some ("v", 5))
      (cacheKeyStr "gpt-4o-mini" "JavaScript" "p") 0 = some "v" ∧
    (runWithCache ⟨some "p", none, none⟩ (fun _ => some ("v", 5)) 0
      (Except.ok ⟨JsVal.str "x", none⟩)).2 = (fun _ => some ("v", 5)) ∧
    (runWithCache ⟨some "p", none, none⟩ (fun _ => some ("v", 5)) 0
      (Except.ok ⟨JsVal.str "x", none⟩)).1.upstreamCalled = false :=
  ⟨rfl,
    (cache_hit_leaves_cache_unchanged ⟨some "p", none, none⟩ "p" "v"
      (fun _ => some ("v", 5)) 0 (Except.ok ⟨JsVal.str "x", none⟩) (by decide)
      (by decide) rfl rfl (by decide)).1,
    (cache_hit_leaves_cache_unchanged ⟨some "p", none, none⟩ "p" "v"
      (fun _ => some ("v", 5)) 0 (Except.ok ⟨JsVal.str "x", none⟩) (by decide)
      (by decide) rfl rfl (by decide)).2.1⟩

end CodeGenProxy
